import Mathlib

/-!
Shallow embedding of the task-queue engine (Rust sources under `src/`):
the task model (`src/models/task.rs`), the in-memory priority queue
(`src/queue/priority_queue.rs`), the engine operations
(`src/queue/task_queue.rs`) and the storage queries used by them
(`src/storage/sqlite.rs`).  Wall-clock timestamps are modelled as `Nat`
(`chrono::DateTime<Utc>` is totally ordered and only compared);
`serde_json::Value` payloads and results are opaque to the engine and are
modelled as `String`.
-/

namespace TaskQueueSys

/-- `TaskState` from `src/models/task.rs`. -/
inductive TaskState
  | Pending
  | Scheduled
  | Running
  | Completed
  | Failed
  | Cancelled
deriving DecidableEq, Repr

/-- `TaskPriority` from `src/models/task.rs`. -/
inductive TaskPriority
  | Low
  | Medium
  | High
  | Critical
deriving DecidableEq, Repr

/-- The `Task` entity of `src/models/task.rs`.  `payload` and `result` are
opaque JSON values, modelled as strings; timestamps are `Nat`. -/
structure Task where
  id : String
  name : String
  payload : String
  state : TaskState
  priority : TaskPriority
  created_at : Nat
  updated_at : Nat
  scheduled_at : Option Nat
  started_at : Option Nat
  completed_at : Option Nat
  attempts : Nat
  max_attempts : Nat
  last_error : Option String
  worker_id : Option String
  result : Option String
  tags : List String
deriving DecidableEq, Repr

/-- `Task::mark_running` (`src/models/task.rs` lines 142-147): sets state
`Running`, the worker id and `started_at`/`updated_at` to now. -/
def Task.mark_running (t : Task) (wid : String) (now : Nat) : Task :=
  { t with state := .Running, worker_id := some wid,
           started_at := some now, updated_at := now }

/-- `Task::mark_completed` (`src/models/task.rs` lines 149-154): sets state
`Completed`, stores the result and sets `completed_at`/`updated_at`. -/
def Task.mark_completed (t : Task) (result : Option String) (now : Nat) : Task :=
  { t with state := .Completed, result := result,
           completed_at := some now, updated_at := now }

/-- `Task::mark_failed` (`src/models/task.rs` lines 156-161): sets state
`Failed`, stores the error, increments `attempts` and refreshes
`updated_at`.  It does not touch `completed_at`. -/
def Task.mark_failed (t : Task) (error : String) (now : Nat) : Task :=
  { t with state := .Failed, last_error := some error,
           attempts := t.attempts + 1, updated_at := now }

/-- `Task::mark_cancelled` (`src/models/task.rs` lines 163-166): sets state
`Cancelled` and refreshes `updated_at`.  It does not touch `completed_at`. -/
def Task.mark_cancelled (t : Task) (now : Nat) : Task :=
  { t with state := .Cancelled, updated_at := now }

/-! ## Priority queue (`src/queue/priority_queue.rs`)

`PrioritizedTask` wraps a task in a `BinaryHeap`, which is a max-heap:
`pop` removes and returns a greatest element under `Ord`.  The `Ord`
implementation (lines 22-45) compares priorities by the ten match arms
below and, when the priorities tie, falls through to
`self.task.created_at.cmp(&other.task.created_at)`. -/

/-- The priority comparison of `Ord for PrioritizedTask`, arm for arm
(lines 25-36 of `src/queue/priority_queue.rs`). -/
def priorityCmp : TaskPriority → TaskPriority → Ordering
  | .Critical, .Critical => .eq
  | .Critical, _ => .gt
  | _, .Critical => .lt
  | .High, .High => .eq
  | .High, _ => .gt
  | _, .High => .lt
  | .Medium, .Medium => .eq
  | .Medium, _ => .gt
  | _, .Medium => .lt
  | .Low, .Low => .eq

/-- `Ord for PrioritizedTask` (lines 22-45): priority comparison first;
when it is `Equal`, `created_at` compared ascending (`self.cmp(other)`,
not reversed). -/
def prioritizedTaskCmp (a b : Task) : Ordering :=
  let p := priorityCmp a.priority b.priority
  if p = .eq then compare a.created_at b.created_at else p

/-- `BinaryHeap::pop` through `PriorityQueue::pop` (lines 72-74): removes
and returns a greatest element of the heap under `prioritizedTaskCmp`.
The heap contents are modelled as a list; among `cmp`-equal elements
`BinaryHeap` leaves the choice unspecified, fixed here deterministically
(first-listed wins). -/
def heapPop : List Task → Option (Task × List Task)
  | [] => none
  | t :: ts =>
    match heapPop ts with
    | none => some (t, [])
    | some (m, rest) =>
      if prioritizedTaskCmp t m = .lt then some (m, t :: rest) else some (t, rest)

/-- A concrete task template for counterexamples. -/
def baseTask : Task :=
  { id := "t", name := "n", payload := "{}", state := .Pending,
    priority := .Medium, created_at := 0, updated_at := 0,
    scheduled_at := none, started_at := none, completed_at := none,
    attempts := 0, max_attempts := 3, last_error := none,
    worker_id := none, result := none, tags := [] }

/-- Medium-priority task created at time 10. -/
def olderTask : Task := { baseTask with id := "older", created_at := 10, updated_at := 10 }

/-- Medium-priority task created at time 20. -/
def newerTask : Task := { baseTask with id := "newer", created_at := 20, updated_at := 20 }

/-! ## Storage (`src/storage/sqlite.rs`)

The `tasks` table is modelled as a list of rows.  `update_task`
(lines 172-215) overwrites every mutable column of the row(s) matching
the id, unconditionally; `get_task` returns the row with the given id or
a not-found error; `create_task` inserts and fails on a duplicate id. -/

abbrev DB := List Task

/-- `get_task`: the first row whose `id` matches, if any. -/
def dbGet : DB → String → Option Task
  | [], _ => none
  | t :: ts, id => if t.id = id then some t else dbGet ts id

/-- `update_task`: overwrite all columns of every row matching the id
(`UPDATE tasks SET ... WHERE id = ?`). -/
def dbUpdate (db : DB) (t : Task) : DB :=
  db.map (fun u => if u.id = t.id then t else u)

/-- `create_task`: `INSERT` that fails when the id already exists. -/
def dbCreate (db : DB) (t : Task) : Option DB :=
  if db.any (fun u => decide (u.id = t.id)) then none else some (db ++ [t])

/-- The processing set: `Arc<Mutex<HashMap<String, Task>>>` in
`src/queue/task_queue.rs`, modelled as an association list. -/
abbrev Processing := List (String × Task)

/-- `HashMap::remove` on the processing set. -/
def procRemove (p : Processing) (id : String) : Processing :=
  p.filter (fun e => decide (e.1 ≠ id))

/-- `HashMap::insert` on the processing set (overwrites an existing key). -/
def procInsert (p : Processing) (id : String) (t : Task) : Processing :=
  (id, t) :: procRemove p id

/-- Outcome of `TaskQueue::cancel_task`. -/
inductive CancelResult
  | ok (db : DB) (proc : Processing)
  | notFound
  | invalidStateTransition
deriving DecidableEq, Repr

/-- `TaskQueue::cancel_task` (`src/queue/task_queue.rs` lines 107-128):
load the task (propagating not-found), reject with an
invalid-state-transition error when the state is `Completed`, otherwise
`mark_cancelled`, persist, and remove the id from the processing set. -/
def cancel_task (db : DB) (proc : Processing) (id : String) (now : Nat) :
    CancelResult :=
  match dbGet db id with
  | none => .notFound
  | some t =>
    if t.state = .Completed then .invalidStateTransition
    else .ok (dbUpdate db (t.mark_cancelled now)) (procRemove proc id)

theorem dbGet_some_id (db : DB) (id : String) (t : Task)
    (h : dbGet db id = some t) : t.id = id := by
  induction db with
  | nil => simp [dbGet] at h
  | cons a as ih =>
    simp only [dbGet] at h
    split at h
    · cases h
      assumption
    · exact ih h

theorem dbGet_dbUpdate (db : DB) (id : String) (t u : Task)
    (h : dbGet db id = some t) (hu : u.id = t.id) :
    dbGet (dbUpdate db u) id = some u := by
  have hid : t.id = id := dbGet_some_id db id t h
  induction db with
  | nil => simp [dbGet] at h
  | cons a as ih =>
    simp only [dbGet] at h
    split at h
    next ha =>
      cases h
      simp [dbUpdate, dbGet, hu, hid]
    next ha =>
      have hrec := ih h
      have hau : ¬ (a.id = u.id) := fun hc => ha (hc.trans (hu.trans hid))
      show dbGet (List.map (fun v => if v.id = u.id then u else v) (a :: as)) id = some u
      rw [List.map_cons, if_neg hau]
      simp only [dbGet]
      rw [if_neg ha]
      exact hrec

/-! ## Execution branch (`src/queue/task_queue.rs` lines 306-351) -/

/-- Result of `tokio::time::timeout(.., simulate_task_execution(..))`:
`Ok(result)` when the handler finished within the deadline, `Err(Elapsed)`
on timeout.  The stand-in handler itself never fails. -/
inductive ExecOutcome
  | ok (result : String)
  | timedOut
deriving DecidableEq, Repr

/-- The canonical timeout message written to `last_error`
("Task timed out after {} seconds", line 338). -/
def timeoutMsg (timeoutSecs : Nat) : String :=
  "Task timed out after " ++ toString timeoutSecs ++ " seconds"

/-- The tail of the execution branch (lines 322-350): re-read the task by
id; on a read failure return early (leaving the processing entry in
place); otherwise apply `mark_completed` on success or `mark_failed` with
the timeout message on timeout — without inspecting the re-read state —
persist the result, and remove the id from the processing set. -/
def executionBranchFinish (db : DB) (proc : Processing) (taskId : String)
    (outcome : ExecOutcome) (timeoutSecs now : Nat) : DB × Processing :=
  match dbGet db taskId with
  | none => (db, proc)
  | some t =>
    let t' := match outcome with
      | .ok r => t.mark_completed (some r) now
      | .timedOut => t.mark_failed (timeoutMsg timeoutSecs) now
    (dbUpdate db t', procRemove proc taskId)

/-! ## Dispatch loop (`src/queue/task_queue.rs` lines 245-303) -/

/-- `QueueConfig` from `src/config/mod.rs`. -/
structure QueueConfig where
  max_concurrent_tasks : Nat
  task_timeout_seconds : Nat
  retry_max_attempts : Nat
  retry_initial_interval_ms : Nat
deriving DecidableEq, Repr

/-- The dispatcher's shared state at an instant: the store, the pending
priority-queue contents, the processing set and the inbound channel's
buffered items. -/
structure EngineState where
  db : DB
  pending : List Task
  processing : Processing
  buffer : List Task
deriving DecidableEq, Repr

/-- The synchronous head of `process_task` (lines 290-303): mark the task
`Running` with this worker's id, persist, and insert it into the
processing set; the execution branch is spawned afterwards. -/
def process_task_start (wid : String) (now : Nat) (s : EngineState)
    (t : Task) : EngineState :=
  let t' := t.mark_running wid now
  { s with db := dbUpdate s.db t',
           processing := procInsert s.processing t'.id t' }

/-- One iteration of the `process_tasks` loop (lines 249-286): (1) drain
every buffered submission with `try_recv`, starting each via
`process_task` with no capacity check; (2) if
`|processing| ≥ max_concurrent_tasks`, sleep and retry (return
unchanged); (3) otherwise pop the priority queue and start the head, or
block on `recv` — a no-op at this instant, the buffer having just been
drained. -/
def dispatchIteration (cfg : QueueConfig) (wid : String) (now : Nat)
    (s : EngineState) : EngineState :=
  let s1 := s.buffer.foldl (process_task_start wid now) { s with buffer := [] }
  if cfg.max_concurrent_tasks ≤ s1.processing.length then s1
  else
    match heapPop s1.pending with
    | some (t, rest) => process_task_start wid now { s1 with pending := rest } t
    | none => s1

/-! ## Scheduler tick (`src/queue/task_queue.rs` lines 163-197) -/

/-- `get_scheduled_tasks` (`src/storage/sqlite.rs` lines 346-365): rows
with `state = 'scheduled'` and `scheduled_at <= before` (a NULL
`scheduled_at` never satisfies the SQL comparison).  The `ORDER BY`
clause only permutes the result and is not modelled here. -/
def get_scheduled_tasks (db : DB) (before : Nat) : List Task :=
  db.filter (fun t =>
    decide (t.state = .Scheduled) &&
    match t.scheduled_at with
    | some s => decide (s ≤ before)
    | none => false)

/-- One tick of the scheduler loop (`start_scheduler`): fetch the due
scheduled tasks and send each, unchanged, to the inbound channel
(`task_sender.send(task)`, line 181).  The loop body performs no
`update_task`, so the store is threaded through untouched; the second
component is the list handed to the dispatch pipeline. -/
def schedulerTick (db : DB) (now : Nat) : DB × List Task :=
  (get_scheduled_tasks db now).foldl (fun acc t => (acc.1, acc.2 ++ [t])) (db, [])

/-! ## Retry controller (`src/queue/task_queue.rs` lines 200-243) -/

/-- `get_failed_tasks_for_retry` (`src/storage/sqlite.rs` lines 439-455):
rows with `state = 'failed'` and `attempts < max_attempts` (`ORDER BY`
not modelled). -/
def get_failed_tasks_for_retry (db : DB) : List Task :=
  db.filter (fun t =>
    decide (t.state = .Failed) && decide (t.attempts < t.max_attempts))

/-- Line 218: `task.state = TaskState::Pending` before the update. -/
def retryPromote (t : Task) : Task := { t with state := .Pending }

/-- The retry loop body for one fetched task (lines 213-230): flip the
state to `Pending`, persist via `update_task`, then send the mutated task
to the inbound channel (accumulated in the second component). -/
def retryStep (acc : DB × List Task) (t : Task) : DB × List Task :=
  (dbUpdate acc.1 (retryPromote t), acc.2 ++ [retryPromote t])

/-- One pass of the retry controller: `retryStep` over the tasks fetched
by `get_failed_tasks_for_retry`.  Storage and channel are modelled as
non-failing; the code merely logs and skips on those errors. -/
def retryPass (db : DB) : DB × List Task :=
  (get_failed_tasks_for_retry db).foldl retryStep (db, [])

/-! ## Submission (`src/queue/task_queue.rs` lines 50-63 and 85-104) -/

/-- The inbound channel created by `crossbeam_channel::bounded` with
capacity `max_concurrent_tasks * 2` (`TaskQueue::new`).  `connected`
records whether the receiving side is still alive. -/
structure Channel where
  capacity : Nat
  items : List Task
  connected : Bool
deriving DecidableEq, Repr

/-- Result of `Sender::send` on a bounded crossbeam channel. -/
inductive SendRes
  | ok (ch : Channel)
  | blockedOnFull
  | err
deriving DecidableEq, Repr

/-- Models `crossbeam_channel::Sender::send` on a bounded channel: it
returns `Err` only when every receiver has been dropped; when the buffer
is full it blocks until space frees and then succeeds (`blockedOnFull`
marks a call that has not yet returned) — a full buffer never produces an
error. -/
def crossbeamSend (ch : Channel) (t : Task) : SendRes :=
  if ch.connected = false then .err
  else if ch.capacity ≤ ch.items.length then .blockedOnFull
  else .ok { ch with items := ch.items ++ [t] }

/-- Caller-visible outcome of `TaskQueue::submit_task`. -/
inductive SubmitResult
  | accepted
  | pendingInSend
  | queueFull
  | alreadyExists
deriving DecidableEq, Repr

/-- The tail of `submit_task` shared by both non-future paths: send to
the inbound channel and map `send(..).is_err()` to `AppError::QueueFull`
(lines 99-101); a blocked send has not returned yet and eventually
returns success. -/
def submitSendPart (ch : Channel) (t : Task) (db' : DB) : SubmitResult × DB :=
  match crossbeamSend ch t with
  | .err => (.queueFull, db')
  | .blockedOnFull => (.pendingInSend, db')
  | .ok _ => (.accepted, db')

/-- `TaskQueue::submit_task` (lines 85-104): persist through
`create_task` (propagating a duplicate-id failure), then return success
without enqueueing when `scheduled_at` is strictly in the future,
otherwise send the task to the inbound channel.  No validation of any
field (in particular `max_attempts`) is performed, neither here nor in
the HTTP handler `create_task` (`src/api/routes.rs` lines 46-82), which
passes `max_attempts` through unchecked. -/
def submit_task (db : DB) (ch : Channel) (t : Task) (now : Nat) :
    SubmitResult × DB :=
  match dbCreate db t with
  | none => (.alreadyExists, db)
  | some db' =>
    match t.scheduled_at with
    | some s => if now < s then (.accepted, db') else submitSendPart ch t db'
    | none => submitSendPart ch t db'

/-! ## Concrete fixtures for counterexamples and witnesses -/

/-- A task already cancelled in storage. -/
def cancelledTask : Task := { baseTask with id := "c", state := .Cancelled }

/-- A running task one failure away from its attempt budget. -/
def failingTask : Task :=
  { baseTask with id := "f", state := .Running, attempts := 2, max_attempts := 3 }

/-- A task scheduled for time 5. -/
def schedTask : Task :=
  { baseTask with id := "s", state := .Scheduled, scheduled_at := some 5 }

/-- Pending task with id "a". -/
def taskA : Task := { baseTask with id := "a" }

/-- Pending task with id "b". -/
def taskB : Task := { baseTask with id := "b" }

/-- A task submitted with `max_attempts = 0`. -/
def zeroAttemptsTask : Task := { baseTask with id := "z", max_attempts := 0 }

/-- A fresh task to submit. -/
def freshTask : Task := { baseTask with id := "new" }

/-- A connected inbound channel at capacity (capacity 4 = 2 × 2). -/
def fullCh : Channel :=
  { capacity := 4, items := [taskA, taskB, taskA, taskB], connected := true }

/-- A connected inbound channel with free space. -/
def emptyCh : Channel := { capacity := 20, items := [], connected := true }

/-- A configuration with `max_concurrent_tasks = 1` and the defaults of
`src/config/mod.rs` elsewhere. -/
def cfg1 : QueueConfig :=
  { max_concurrent_tasks := 1, task_timeout_seconds := 300,
    retry_max_attempts := 3, retry_initial_interval_ms := 1000 }

end TaskQueueSys

namespace TaskQueueSys

/-- C1: With two equal-priority tasks in the queue, created at times 10 and
20, `pop` returns the task created at 20 (the newer one) first: the
comparator orders `created_at` ascending inside a max-heap without
reversal, so the newest task is the heap maximum.  This contradicts the
claimed FIFO-within-class order (and the repository's own unit test
`test_creation_time_ordering` and the comment "older tasks come first"). -/
theorem c1_pop_returns_newer_task_first :
    heapPop [olderTask, newerTask] = some (newerTask, [olderTask]) ∧
    olderTask.created_at < newerTask.created_at ∧
    olderTask.priority = newerTask.priority := by
  refine ⟨?_, by decide, rfl⟩
  rfl

/-- C6 counterexample: cancelling a Pending task succeeds, but the
committed write leaves `completed_at` unset — `mark_cancelled` only sets
`state` and `updated_at`, contradicting the claim that the committed
write has `completed_at` set to the cancellation time. -/
theorem c6_cancel_pending_no_completed_at :
    cancel_task [baseTask] [] "t" 42 = .ok [baseTask.mark_cancelled 42] [] ∧
    (baseTask.mark_cancelled 42).state = .Cancelled ∧
    (baseTask.mark_cancelled 42).completed_at = none :=
  ⟨rfl, rfl, rfl⟩

/-- C6 amended: `cancel_task` fails with invalid-state-transition iff the
loaded task's state is `Completed`; in every other state it succeeds and
the committed write has `state = Cancelled` and a refreshed `updated_at`,
while `completed_at` is left unchanged (in particular not set to the
cancellation time). -/
theorem c6_cancel_amended (db : DB) (proc : Processing) (id : String)
    (t : Task) (now : Nat) (h : dbGet db id = some t) :
    (t.state = .Completed → cancel_task db proc id now = .invalidStateTransition) ∧
    (t.state ≠ .Completed →
      cancel_task db proc id now =
        .ok (dbUpdate db (t.mark_cancelled now)) (procRemove proc id) ∧
      (t.mark_cancelled now).state = .Cancelled ∧
      (t.mark_cancelled now).completed_at = t.completed_at) := by
  constructor
  · intro hc
    simp [cancel_task, h, hc]
  · intro hc
    refine ⟨?_, rfl, rfl⟩
    simp [cancel_task, h, hc]

/-- Witness for `c6_cancel_amended` at a concrete Pending task. -/
theorem c6_cancel_amended_witness :
    cancel_task [baseTask] [] "t" 7 =
      .ok (dbUpdate [baseTask] (baseTask.mark_cancelled 7)) (procRemove [] "t") ∧
    (baseTask.mark_cancelled 7).state = .Cancelled ∧
    (baseTask.mark_cancelled 7).completed_at = baseTask.completed_at :=
  (c6_cancel_amended [baseTask] [] "t" baseTask 7 rfl).2 (by decide)

/-- C10: cancel is idempotent over non-Completed tasks, including one
already Cancelled: after a successful cancel, a second `cancel_task` on
the same id also succeeds (only `Completed` is rejected) and the stored
state remains `Cancelled`. -/
theorem c10_cancel_idempotent (db : DB) (proc proc' : Processing)
    (id : String) (t : Task) (now now' : Nat)
    (h : dbGet db id = some t) (hs : t.state ≠ .Completed) :
    cancel_task db proc id now =
      .ok (dbUpdate db (t.mark_cancelled now)) (procRemove proc id) ∧
    cancel_task (dbUpdate db (t.mark_cancelled now)) proc' id now' =
      .ok (dbUpdate (dbUpdate db (t.mark_cancelled now))
            ((t.mark_cancelled now).mark_cancelled now'))
          (procRemove proc' id) ∧
    dbGet (dbUpdate (dbUpdate db (t.mark_cancelled now))
            ((t.mark_cancelled now).mark_cancelled now')) id =
      some ((t.mark_cancelled now).mark_cancelled now') ∧
    ((t.mark_cancelled now).mark_cancelled now').state = .Cancelled := by
  have h1 : dbGet (dbUpdate db (t.mark_cancelled now)) id =
      some (t.mark_cancelled now) :=
    dbGet_dbUpdate db id t (t.mark_cancelled now) h rfl
  have h2 : dbGet (dbUpdate (dbUpdate db (t.mark_cancelled now))
      ((t.mark_cancelled now).mark_cancelled now')) id =
      some ((t.mark_cancelled now).mark_cancelled now') :=
    dbGet_dbUpdate _ id (t.mark_cancelled now) _ h1 rfl
  refine ⟨?_, ?_, h2, rfl⟩
  · simp [cancel_task, h, hs]
  · simp only [cancel_task, h1]
    rw [if_neg]
    simp [Task.mark_cancelled]

/-- Witness for `c10_cancel_idempotent`: two successive cancels of a
concrete Pending task. -/
theorem c10_cancel_idempotent_witness :
    cancel_task [baseTask] [] "t" 1 =
      .ok (dbUpdate [baseTask] (baseTask.mark_cancelled 1)) (procRemove [] "t") ∧
    cancel_task (dbUpdate [baseTask] (baseTask.mark_cancelled 1)) [] "t" 2 =
      .ok (dbUpdate (dbUpdate [baseTask] (baseTask.mark_cancelled 1))
            ((baseTask.mark_cancelled 1).mark_cancelled 2))
          (procRemove [] "t") ∧
    dbGet (dbUpdate (dbUpdate [baseTask] (baseTask.mark_cancelled 1))
            ((baseTask.mark_cancelled 1).mark_cancelled 2)) "t" =
      some ((baseTask.mark_cancelled 1).mark_cancelled 2) ∧
    ((baseTask.mark_cancelled 1).mark_cancelled 2).state = .Cancelled :=
  c10_cancel_idempotent [baseTask] [] [] "t" baseTask 1 2 rfl (by decide)

/-- C2 counterexample: a task whose stored state is `Cancelled` when the
execution branch re-reads it is overwritten to `Completed` when the
handler succeeds — the branch does not discard its outcome. -/
theorem c2_cancelled_overwritten_by_writeback :
    (executionBranchFinish [cancelledTask] [] "c" (.ok "r") 300 99).1 =
      [cancelledTask.mark_completed (some "r") 99] ∧
    cancelledTask.state = .Cancelled ∧
    (cancelledTask.mark_completed (some "r") 99).state = .Completed :=
  ⟨rfl, rfl, rfl⟩

/-- C2 amended: after the handler finishes, the execution branch applies
`Completed` (on success) or `Failed` (on timeout) to the re-read task
unconditionally, whatever its stored state — in particular a task
re-read as `Cancelled` is written back out of `Cancelled`. -/
theorem c2_writeback_ignores_stored_state (db : DB) (proc : Processing)
    (id : String) (t : Task) (outcome : ExecOutcome) (ts now : Nat)
    (h : dbGet db id = some t) :
    ∃ t', executionBranchFinish db proc id outcome ts now =
        (dbUpdate db t', procRemove proc id) ∧
      dbGet (dbUpdate db t') id = some t' ∧
      t'.state = (match outcome with
                  | .ok _ => TaskState.Completed
                  | .timedOut => TaskState.Failed) := by
  cases outcome with
  | ok r =>
    refine ⟨t.mark_completed (some r) now, ?_,
      dbGet_dbUpdate db id t _ h rfl, rfl⟩
    simp [executionBranchFinish, h]
  | timedOut =>
    refine ⟨t.mark_failed (timeoutMsg ts) now, ?_,
      dbGet_dbUpdate db id t _ h rfl, rfl⟩
    simp [executionBranchFinish, h]

/-- Witness for `c2_writeback_ignores_stored_state` at a concrete
cancelled task and a successful outcome. -/
theorem c2_writeback_ignores_stored_state_witness :
    ∃ t', executionBranchFinish [cancelledTask] [] "c" (.ok "res") 300 99 =
        (dbUpdate [cancelledTask] t', procRemove [] "c") ∧
      dbGet (dbUpdate [cancelledTask] t') "c" = some t' ∧
      t'.state = (match (ExecOutcome.ok "res") with
                  | .ok _ => TaskState.Completed
                  | .timedOut => TaskState.Failed) :=
  c2_writeback_ignores_stored_state [cancelledTask] [] "c" cancelledTask
    (.ok "res") 300 99 rfl

/-- C3 counterexample: with `max_concurrent_tasks = 1` and two tasks in
the inbound buffer, one dispatch-loop iteration drains and starts both,
leaving the processing set at size 2 — above the cap. -/
theorem c3_drained_tasks_bypass_cap :
    (dispatchIteration cfg1 "w" 0
      { db := [taskA, taskB], pending := [], processing := [],
        buffer := [taskA, taskB] }).processing.length = 2 ∧
    cfg1.max_concurrent_tasks = 1 :=
  ⟨rfl, rfl⟩

/-- C3 amended: the capacity check guards only the priority-queue pop
path: with the inbound buffer empty and the processing set at or above
`max_concurrent_tasks`, the iteration starts nothing; tasks drained from
the inbound buffer are started with no capacity check at all. -/
theorem c3_cap_guards_only_heap_pop (cfg : QueueConfig) (wid : String)
    (now : Nat) (s : EngineState)
    (hb : s.buffer = [])
    (hc : cfg.max_concurrent_tasks ≤ s.processing.length) :
    dispatchIteration cfg wid now s = s := by
  obtain ⟨d, p, pr, b⟩ := s
  dsimp only at hb hc
  subst hb
  simp [dispatchIteration, hc]

/-- Witness for `c3_cap_guards_only_heap_pop`: a full processing set and
an empty buffer leave the state unchanged. -/
theorem c3_cap_guards_only_heap_pop_witness :
    dispatchIteration cfg1 "w" 0
      { db := [taskA], pending := [], processing := [("a", taskA)],
        buffer := [] } =
      { db := [taskA], pending := [], processing := [("a", taskA)],
        buffer := [] } :=
  c3_cap_guards_only_heap_pop cfg1 "w" 0 _ rfl (by decide)

/-- C4 counterexample: a timeout on a task one failure from its budget
is written back with `attempts = max_attempts` (terminal failure) and yet
`completed_at` is still unset — `mark_failed` never sets it. -/
theorem c4_terminal_failure_without_completed_at :
    (executionBranchFinish [failingTask] [] "f" .timedOut 300 50).1 =
      [failingTask.mark_failed (timeoutMsg 300) 50] ∧
    (failingTask.mark_failed (timeoutMsg 300) 50).attempts =
      (failingTask.mark_failed (timeoutMsg 300) 50).max_attempts ∧
    (failingTask.mark_failed (timeoutMsg 300) 50).completed_at = none :=
  ⟨rfl, rfl, rfl⟩

/-- C4 amended: the failure write-back sets state `Failed`, records the
error in `last_error` and increments `attempts` by one, but leaves
`completed_at` unchanged in every case — it is never set on the failure
path, terminal or not. -/
theorem c4_mark_failed_fields (t : Task) (e : String) (now : Nat) :
    (t.mark_failed e now).state = .Failed ∧
    (t.mark_failed e now).last_error = some e ∧
    (t.mark_failed e now).attempts = t.attempts + 1 ∧
    (t.mark_failed e now).completed_at = t.completed_at :=
  ⟨rfl, rfl, rfl, rfl⟩

theorem foldl_pair_append (l : List Task) (db : DB) (acc : List Task) :
    l.foldl (fun a t => (a.1, a.2 ++ [t])) (db, acc) = (db, acc ++ l) := by
  induction l generalizing acc with
  | nil => simp
  | cons x xs ih => simp [List.foldl_cons, ih]

theorem schedulerTick_eq (db : DB) (now : Nat) :
    schedulerTick db now = (db, get_scheduled_tasks db now) := by
  simpa using foldl_pair_append (get_scheduled_tasks db now) db []

/-- C5 counterexample: a due scheduled task is handed to the pipeline
still in state `Scheduled`, the store is unchanged by the tick, and a
second tick fetches and hands the very same task again — the promotion
to `Pending` is neither applied nor persisted, and the tick is not
idempotent. -/
theorem c5_tick_not_persisted_not_idempotent :
    schedulerTick [schedTask] 10 = ([schedTask], [schedTask]) ∧
    schedTask.state = .Scheduled ∧
    (schedulerTick (schedulerTick [schedTask] 10).1 10).2 = [schedTask] :=
  ⟨rfl, rfl, rfl⟩

/-- C5 amended: on each tick, every task returned by storage with state
`Scheduled` and `scheduled_at ≤ now` is handed, unchanged and still
`Scheduled`, to the dispatch pipeline; no update is persisted, so an
immediately repeated tick hands exactly the same tasks again. -/
theorem c5_tick_sends_unchanged_scheduled (db : DB) (now : Nat) :
    schedulerTick db now = (db, get_scheduled_tasks db now) ∧
    (schedulerTick db now).2.all (fun t => decide (t.state = .Scheduled)) = true ∧
    (schedulerTick (schedulerTick db now).1 now).2 = (schedulerTick db now).2 := by
  refine ⟨schedulerTick_eq db now, ?_, by simp [schedulerTick_eq]⟩
  simp only [schedulerTick_eq]
  rw [List.all_eq_true]
  intro t ht
  simp only [get_scheduled_tasks, List.mem_filter, Bool.and_eq_true] at ht
  exact ht.2.1

theorem retry_fold_sent (l : List Task) (db : DB) (acc : List Task) :
    (l.foldl retryStep (db, acc)).2 = acc ++ l.map retryPromote := by
  induction l generalizing db acc with
  | nil => simp
  | cons x xs ih => simp [List.foldl_cons, retryStep, ih]

theorem retry_fold_mem (l : List Task) (db : DB) (acc : List Task) (u : Task)
    (hu : u ∈ (l.foldl retryStep (db, acc)).1) :
    (u ∈ db ∧ ∀ t ∈ l, t.id ≠ u.id) ∨ u.state = .Pending := by
  induction l generalizing db acc with
  | nil =>
    left
    exact ⟨hu, by simp⟩
  | cons x xs ih =>
    rw [List.foldl_cons] at hu
    rcases ih (dbUpdate db (retryPromote x)) (acc ++ [retryPromote x]) hu with
      ⟨hmem, hids⟩ | hp
    · simp only [dbUpdate] at hmem
      rcases List.mem_map.mp hmem with ⟨w, hw, hfw⟩
      by_cases hwx : w.id = (retryPromote x).id
      · right
        rw [← hfw, if_pos hwx]
        rfl
      · left
        have hwu : w = u := by
          rw [if_neg hwx] at hfw
          exact hfw
        refine ⟨hwu ▸ hw, ?_⟩
        intro t ht
        rcases List.mem_cons.mp ht with rfl | htxs
        · rw [← hwu]
          exact fun hc => hwx hc.symm
        · exact hids t htxs
    · right
      exact hp

/-- C9: one pass of the retry controller hands to the dispatch pipeline
exactly the fetched tasks — those with state `Failed` and
`attempts < max_attempts` — each flipped to `Pending`, and the persisted
updates ensure an immediately following fetch returns nothing: a task is
promoted at most once per failure. -/
theorem c9_retry_promotes_at_most_once (db : DB) :
    (retryPass db).2 = (get_failed_tasks_for_retry db).map retryPromote ∧
    get_failed_tasks_for_retry (retryPass db).1 = [] := by
  constructor
  · simpa using retry_fold_sent (get_failed_tasks_for_retry db) db []
  · have hnil : ∀ u ∈ (retryPass db).1,
        ¬ (decide (u.state = .Failed) && decide (u.attempts < u.max_attempts)) = true := by
      intro u hu hpred
      rcases retry_fold_mem (get_failed_tasks_for_retry db) db [] u hu with
        ⟨hmem, hids⟩ | hp
      · exact hids u (List.mem_filter.mpr ⟨hmem, hpred⟩) rfl
      · rw [hp] at hpred
        simp at hpred
    rw [get_failed_tasks_for_retry]
    exact List.filter_eq_nil_iff.mpr hnil

/-- C7: submitting a not-future-dated task while the inbound buffer holds
`2 × max_concurrent_tasks` items does not return queue-full: the blocking
`send` leaves the call waiting for space (it errors, and is mapped to
`AppError::QueueFull`, only when the receiver has been dropped).  The
task is nonetheless persisted in `Pending`. -/
theorem c7_submit_blocks_at_capacity :
    submit_task [] fullCh freshTask 0 = (.pendingInSend, [freshTask]) ∧
    fullCh.items.length = fullCh.capacity ∧
    fullCh.connected = true ∧
    freshTask.state = .Pending :=
  ⟨rfl, rfl, rfl, rfl⟩

/-- C8 counterexample: a task with `max_attempts = 0` is accepted by
submit, persisted, and enqueued — there is no validation step. -/
theorem c8_zero_max_attempts_stored_and_enqueued :
    submit_task [] emptyCh zeroAttemptsTask 0 = (.accepted, [zeroAttemptsTask]) ∧
    zeroAttemptsTask.max_attempts = 0 :=
  ⟨rfl, rfl⟩

theorem submitSendPart_snd (ch : Channel) (t : Task) (d : DB) :
    (submitSendPart ch t d).2 = d := by
  rw [submitSendPart]
  split <;> rfl

theorem submitSendPart_fst_agnostic (ch : Channel) (t t' : Task) (d d' : DB) :
    (submitSendPart ch t d).1 = (submitSendPart ch t' d').1 := by
  rw [submitSendPart, submitSendPart]
  unfold crossbeamSend
  by_cases h1 : ch.connected = false
  · simp [h1]
  · simp only [if_neg h1]
    by_cases h2 : ch.capacity ≤ ch.items.length <;> simp [h2]

/-- C8 amended: `submit_task` performs no validation of `max_attempts` at
all: a non-duplicate task with `max_attempts = 0` is persisted exactly
like any other, and the caller-visible outcome is identical to the one
for the same task with a positive `max_attempts`. -/
theorem c8_no_max_attempts_validation (db : DB) (ch : Channel) (t : Task)
    (now : Nat) (_h0 : t.max_attempts = 0)
    (hd : db.any (fun u => decide (u.id = t.id)) = false) :
    (submit_task db ch t now).2 = db ++ [t] ∧
    (submit_task db ch t now).1 =
      (submit_task db ch { t with max_attempts := 1 } now).1 := by
  have hcr : dbCreate db t = some (db ++ [t]) := by
    simp [dbCreate, hd]
  have hcr' : dbCreate db { t with max_attempts := 1 } =
      some (db ++ [{ t with max_attempts := 1 }]) := by
    simp [dbCreate, hd]
  constructor
  · simp only [submit_task, hcr]
    cases hs : t.scheduled_at with
    | none => exact submitSendPart_snd ch t (db ++ [t])
    | some s =>
      by_cases hlt : now < s
      · simp [hlt]
      · simp [hlt, submitSendPart_snd]
  · simp only [submit_task, hcr, hcr']
    cases hs : t.scheduled_at with
    | none => exact submitSendPart_fst_agnostic ch t _ _ _
    | some s =>
      by_cases hlt : now < s
      · simp [hlt]
      · simp only [if_neg hlt]
        exact submitSendPart_fst_agnostic ch t _ _ _

/-- Witness for `c8_no_max_attempts_validation` at a concrete
`max_attempts = 0` task and an empty store. -/
theorem c8_no_max_attempts_validation_witness :
    (submit_task [] emptyCh zeroAttemptsTask 0).2 = [] ++ [zeroAttemptsTask] ∧
    (submit_task [] emptyCh zeroAttemptsTask 0).1 =
      (submit_task [] emptyCh { zeroAttemptsTask with max_attempts := 1 } 0).1 :=
  c8_no_max_attempts_validation [] emptyCh zeroAttemptsTask 0 rfl rfl

end TaskQueueSys
